import Mathlib

/-!
Shallow embedding of the E-Mandi marketplace backend (`app.py`): the SMS
command interpreter (LIST / BID / COLLECTIVE), the user/lot/bid data model,
the highest-bid computation and the sale-confirmation endpoint.

Modelling conventions:
* Python floats are modelled as rationals (`ℚ`); `float(...)` literals that
  the handlers parse are finite decimals, where rational and IEEE semantics
  agree for the values considered here.
* The SQLAlchemy tables become lists kept in insertion order inside a `DB`
  record; `query.first()` / `query.get(pk)` become `List.find?` on those
  lists, and autoincrement primary keys are threaded as explicit counters.
* The random 12-digit login code in `get_or_create_user` is an input
  (`code`) of the handler, since randomness is not a function of the state.
* The JSON-string `members` column is modelled as the decoded list of ids
  (the code round-trips it through `json.loads`/`json.dumps` on every use).
* `Bid.timestamp` is a `DateTime` column whose default produces the float
  `time.time()`; the SQLite dialect rejects such a value, so every Bid
  INSERT raises a StatementError that `except (ValueError, IndexError)`
  does not catch.  `handleBid` models that request as an HTTP 500 with
  nothing persisted; the column carries no readable value and is therefore
  not a field of the row model.
* `confirm_sale` reads `bid.bidder` and `lot.farmer`, but no relationship
  of either name is declared on the models, so after committing the status
  change the endpoint raises AttributeError; its success branch is
  modelled as an HTTP 500 with no notification sent.
* Results carry an HTTP status; 500 marks a request that died on an
  uncaught exception (its reply text is empty: the webhook returns the
  framework's error page, not TwiML).
* Outbound SMS messages and socket.io events are collected as explicit
  effect lists instead of being fired.
* Python string helpers (`strip`, `lower`, `split(' ')`) and numeric
  parsing/printing are re-implemented below by structural recursion over
  `List Char` so that all definitions evaluate inside the kernel.
-/

namespace EMandi

/-- Python `str.strip()` on the default whitespace characters. -/
def pyStrip (s : String) : String :=
  String.mk (((s.data.dropWhile Char.isWhitespace).reverse.dropWhile Char.isWhitespace).reverse)

/-- Python `str.lower()` (ASCII case folding, which is all the handlers use). -/
def pyLower (s : String) : String :=
  String.mk (s.data.map Char.toLower)

/-- Splitting a character list at every occurrence of `c`, keeping empty
pieces, exactly like Python `str.split(' ')` with an explicit separator. -/
def splitCharAux (c : Char) : List Char → List Char → List (List Char)
  | [], acc => [acc.reverse]
  | x :: xs, acc =>
    if x = c then acc.reverse :: splitCharAux c xs [] else splitCharAux c xs (x :: acc)

/-- Python `s.split(' ')`. -/
def pySplitSpace (s : String) : List String :=
  (splitCharAux ' ' s.data []).map String.mk

/-- The token list the handler works on: `body.strip().lower().split(' ')`. -/
def partsOf (body : String) : List String :=
  pySplitSpace (pyLower (pyStrip body))

/-- Numeric value of a digit string. -/
def digitsVal (l : List Char) : Nat :=
  l.foldl (fun n ch => 10 * n + (ch.toNat - 48)) 0

/-- A Python digit group: nonempty ASCII digits with single underscores
strictly between digits (`1_000` yes; `_1`, `1_`, `1__0` no). -/
def isDigitsU : List Char → Bool
  | [] => false
  | [c] => c.isDigit
  | c :: '_' :: rest => c.isDigit && isDigitsU rest
  | c :: rest => c.isDigit && isDigitsU rest

/-- Numeric value of a digit group, underscores removed. -/
def digitsUVal (l : List Char) : Nat :=
  digitsVal (l.filter (fun ch => ch ≠ '_'))

/-- The exponent part of a float literal, after the `e`: an optional sign
and a digit group. -/
def parseExp (l : List Char) : Option Int :=
  match l with
  | '+' :: r => if isDigitsU r then some ((digitsUVal r : Int)) else none
  | '-' :: r => if isDigitsU r then some (-(digitsUVal r : Int)) else none
  | r => if isDigitsU r then some ((digitsUVal r : Int)) else none

/-- The mantissa of a float literal: `d`, `d.`, `.d` or `d.d` with
underscore-grouped digit parts (Python accepts `5.` and `.5`, but not `.`,
and underscores may not touch the dot). -/
def parseMantissa (l : List Char) : Option ℚ :=
  match splitCharAux '.' l [] with
  | [ip] => if isDigitsU ip then some ((digitsUVal ip : ℚ)) else none
  | [ip, fp] =>
    if ip = [] then
      if isDigitsU fp then
        some ((digitsUVal fp : ℚ) / (10 : ℚ) ^ (fp.filter (fun ch => ch ≠ '_')).length)
      else none
    else if fp = [] then
      if isDigitsU ip then some ((digitsUVal ip : ℚ)) else none
    else
      if isDigitsU ip && isDigitsU fp then
        some ((digitsUVal ip : ℚ)
          + (digitsUVal fp : ℚ) / (10 : ℚ) ^ (fp.filter (fun ch => ch ≠ '_')).length)
      else none
  | _ => none

/-- Mantissa and optional `e`-exponent. -/
def parseFloatBody (l : List Char) : Option ℚ :=
  match splitCharAux 'e' l [] with
  | [m] => parseMantissa m
  | [m, ex] =>
    (parseMantissa m).bind (fun v =>
      (parseExp ex).map (fun e =>
        if 0 ≤ e then v * (10 : ℚ) ^ e.toNat else v / (10 : ℚ) ^ (-e).toNat))
  | _ => none

/-- Python `float(s)` on ASCII input, restricted to finite values: after
stripping, an optional sign and then a decimal mantissa with an optional
`e`-exponent, underscores allowed between digits — exactly the finite
forms CPython accepts.  The non-finite tokens flagged by `isInfNan` (which
Python does parse) are mapped to `none` by this rational-valued parser. -/
def parseFloat (s : String) : Option ℚ :=
  match (pyLower (pyStrip s)).data with
  | '-' :: r => (parseFloatBody r).map (fun v => -v)
  | '+' :: r => parseFloatBody r
  | r => parseFloatBody r

/-- Python `int(s)` on ASCII base-10 input: after stripping, an optional
sign and a digit group with underscores between digits. -/
def parseInt (s : String) : Option Int :=
  match (pyStrip s).data with
  | '-' :: r => if isDigitsU r then some (-(digitsUVal r : Int)) else none
  | '+' :: r => if isDigitsU r then some ((digitsUVal r : Int)) else none
  | r => if isDigitsU r then some ((digitsUVal r : Int)) else none

/-- Multiplicity of `p` in `n`, with explicit fuel so it is structural. -/
def multAux : Nat → Nat → Nat → Nat
  | 0, _, _ => 0
  | fuel + 1, p, n =>
    if 2 ≤ p ∧ p ∣ n ∧ n ≠ 0 then multAux fuel p (n / p) + 1 else 0

/-- Multiplicity of the prime `p` in `n`. -/
def mult (p n : Nat) : Nat :=
  multAux n p n

/-- Left-pad a digit string with zeros to length `m`. -/
def padZeros (l : List Char) (m : Nat) : List Char :=
  List.replicate (m - l.length) '0' ++ l

/-- Python `str(x)` / `repr(x)` for a float holding the finite decimal `q`
(shortest decimal form, always with a fractional part, e.g. `500.0`). -/
def floatRepr (q : ℚ) : String :=
  let sgn := if q < 0 then "-" else ""
  let n := q.num.natAbs
  let d := q.den
  let m := max (mult 2 d) (mult 5 d)
  let scaled := n * 10 ^ m / d
  let ip := scaled / 10 ^ m
  let fp := scaled % 10 ^ m
  let fpS := if m = 0 then "0" else String.mk (padZeros (toString fp).data m)
  sgn ++ toString ip ++ "." ++ fpS

/-- Python `str(x)` for an integer-valued number of `int` type (the MSP
table entries are Python ints and print without a fractional part). -/
def qIntRepr (q : ℚ) : String :=
  toString q.num

/-- `User` row of `app.py`. -/
structure User where
  id : Nat
  phone_number : String
  user_type : String
  district : Option String
  login_code : Option String
deriving DecidableEq

/-- `Lot` row of `app.py`; `members` is the decoded JSON list. -/
structure Lot where
  id : Nat
  farmer_id : Nat
  crop_type : String
  quantity_kg : ℚ
  min_price : Option ℚ
  status : String
  is_collective : Bool
  members : List Nat
deriving DecidableEq

/-- `Bid` row of `app.py`.  The `timestamp` column is not carried: no
modelled operation reads it, and its defective default (a `DateTime`
column defaulting to the float `time.time()`) makes every INSERT raise, so
the handlers never construct a row — that failure is modelled explicitly
in `handleBid`.  Rows of this shape can still populate a state for the
read-side endpoints. -/
structure Bid where
  id : Nat
  lot_id : Nat
  bidder_id : Nat
  bid_amount : ℚ
deriving DecidableEq

/-- A `socketio.emit('bid_update', ...)` payload. -/
structure BidEvent where
  lot_id : Int
  bid_amount : ℚ
deriving DecidableEq

/-- The in-memory database: the three tables in insertion order together
with the next autoincrement primary key of each. -/
structure DB where
  users : List User
  lots : List Lot
  bids : List Bid
  nextUserId : Nat
  nextLotId : Nat
  nextBidId : Nat
deriving DecidableEq

/-- Result of one inbound SMS: the TwiML reply text, the new database, the
outbound SMS messages `(to, body)` in send order, the socket events, and
the HTTP status (500 when the request died on an uncaught exception, in
which case the reply text is empty). -/
structure SmsResult where
  reply : String
  db : DB
  sms : List (String × String)
  events : List BidEvent
  status : Nat := 200
deriving DecidableEq

/-- `MSP_PRICES` of `app.py`. -/
def MSP_PRICES : List (String × ℚ) :=
  [("wheat", 2275), ("rice", 2203), ("maize", 2090)]

/-- `MSP_PRICES.get(crop)` (`none` models Python `None`). -/
def mspGet (crop : String) : Option ℚ :=
  (MSP_PRICES.find? (fun p => p.1 == crop)).map (fun p => p.2)

/-- The welcome SMS sent to a freshly created user. -/
def welcomeMsg (code : String) : String :=
  "Welcome to Farmer Market! Your login code is " ++ code ++ ". Use this for the web portal."

/-- `get_or_create_user` of `app.py`: look the sender up by phone number;
if absent create the row (with the supplied login `code` standing for the
randomly generated one) and send the welcome SMS. -/
def get_or_create_user (phone_number user_type : String) (district : Option String)
    (code : String) (db : DB) : User × DB × List (String × String) :=
  match db.users.find? (fun u => u.phone_number == phone_number) with
  | some u => (u, db, [])
  | none =>
    let u : User :=
      { id := db.nextUserId, phone_number := phone_number, user_type := user_type,
        district := district, login_code := some code }
    (u, { db with users := db.users ++ [u], nextUserId := db.nextUserId + 1 },
      [(phone_number, welcomeMsg code)])

/-- Replace the first element satisfying `p` by its image under `f`
(SQLAlchemy: mutate the row returned by `.first()` / `.get(pk)`). -/
def updateFirst (p : Lot → Bool) (f : Lot → Lot) : List Lot → List Lot
  | [] => []
  | l :: ls => if p l then f l :: ls else l :: updateFirst p f ls

/-- The generic help reply of the final `else` branch. -/
def helpMsg : String :=
  "Welcome to the marketplace! Commands: 'LIST <CROP> <QTY> [PRICE]' or 'BID <LOT_ID> <AMT>'."

/-- LIST's format-error reply. -/
def listInvalidMsg : String :=
  "Invalid format. Use 'LIST CROP QUANTITY [PRICE]'."

/-- BID's format-error reply. -/
def bidInvalidMsg : String :=
  "Invalid format. Use 'BID LOT_ID AMOUNT'."

/-- COLLECTIVE's format-error reply. -/
def collectiveInvalidMsg : String :=
  "Invalid format. Use 'COLLECTIVE CROP QUANTITY DISTRICT'."

/-- Reply for a missing or non-open lot. -/
def lotUnavailableMsg : String :=
  "Lot is not available for bidding."

/-- Reply for a bid below the minimum price (the stored column value is a
Python float by the time it is read back, hence float formatting). -/
def tooLowMsg (mp : Option ℚ) : String :=
  "Your bid is too low. Minimum price is Rs. " ++ floatRepr (mp.getD 0) ++ "."

/-- The guard `lot.min_price and bid_amount < lot.min_price`: Python
truthiness makes both `None` and `0` skip the minimum-price check. -/
def minPriceBlocks (mp : Option ℚ) (amt : ℚ) : Bool :=
  match mp with
  | some p => decide (p ≠ 0) && decide (amt < p)
  | none => false

/-- The minimum price of a LIST command: `float(parts[3])` when a 4th token
exists (its parse failure aborts the command), else the MSP table lookup.
The boolean records whether the value is the explicit Python float (true)
or the Python int from `MSP_PRICES` (false); it only affects formatting. -/
def listMinPrice (crop : String) (parts : List String) : Option (Option ℚ × Bool) :=
  if 3 < parts.length then (parseFloat (parts.getD 3 "")).map (fun p => (some p, true))
  else some (mspGet crop, false)

/-- The `price_msg` fragment of the LIST reply (`if min_price` truthiness:
`None` and `0` both fall back to the MSP wording). -/
def priceMsgStr (mpex : Option ℚ × Bool) : String :=
  match mpex.1 with
  | some p =>
    if p ≠ 0 then
      " at your minimum price of Rs. " ++ (if mpex.2 then floatRepr p else qIntRepr p)
    else " at the current MSP"
  | none => " at the current MSP"

/-- The LIST confirmation reply. -/
def listReply (crop : String) (q : ℚ) (lotId : Nat) (mpex : Option ℚ × Bool) : String :=
  "Lot listed! Crop: " ++ crop ++ ", Quantity: " ++ floatRepr q ++ "kg. Lot ID: " ++
    toString lotId ++ priceMsgStr mpex ++ "."

/-- The `list` branch of `sms_handler`. -/
def handleList (code phone : String) (parts : List String) (db : DB) : SmsResult :=
  let crop := parts.getD 1 ""
  match parseFloat (parts.getD 2 "") with
  | none => { reply := listInvalidMsg, db := db, sms := [], events := [] }
  | some quantity =>
    match listMinPrice crop parts with
    | none => { reply := listInvalidMsg, db := db, sms := [], events := [] }
    | some mpex =>
      let ucr := get_or_create_user phone ("farmer") none code db
      let db1 := ucr.2.1
      let newLot : Lot :=
        { id := db1.nextLotId, farmer_id := ucr.1.id, crop_type := crop,
          quantity_kg := quantity, min_price := mpex.1, status := ("open"),
          is_collective := false, members := [] }
      { reply := listReply crop quantity newLot.id mpex,
        db := { db1 with lots := db1.lots ++ [newLot], nextLotId := db1.nextLotId + 1 },
        sms := ucr.2.2, events := [] }

/-- The `bid` branch of `sms_handler`.  The buyer is registered (possibly
created) before any lot check, exactly as in the source.  When all checks
pass, `db.session.add(new_bid); db.session.commit()` raises a
StatementError — the `timestamp` column is `DateTime` but its default
produces the float `time.time()`, which the SQLite dialect rejects — and
`except (ValueError, IndexError)` does not catch it: the request fails
with HTTP 500 before the emit, the reply and the MSP-alert lines can run,
and no Bid row is persisted (the welcome SMS of a just-created buyer was
already committed and sent). -/
def handleBid (code phone : String) (parts : List String) (db : DB) : SmsResult :=
  match parseInt (parts.getD 1 ""), parseFloat (parts.getD 2 "") with
  | some lot_id, some bid_amount =>
    let ucr := get_or_create_user phone ("buyer") none code db
    let db1 := ucr.2.1
    match db1.lots.find? (fun l => ((l.id : Int) == lot_id)) with
    | none => { reply := lotUnavailableMsg, db := db1, sms := ucr.2.2, events := [] }
    | some lot =>
      if lot.status ≠ "open" then
        { reply := lotUnavailableMsg, db := db1, sms := ucr.2.2, events := [] }
      else if minPriceBlocks lot.min_price bid_amount then
        { reply := tooLowMsg lot.min_price, db := db1, sms := ucr.2.2, events := [] }
      else
        { reply := (""), status := 500, db := db1, sms := ucr.2.2, events := [] }
  | _, _ => { reply := bidInvalidMsg, db := db, sms := [], events := [] }

/-- The predicate of the open-collective-lot lookup (district is collected
from the command but not part of the match key, as in the source). -/
def collMatch (crop : String) (l : Lot) : Bool :=
  l.is_collective && l.crop_type == crop && l.status == "open"

/-- The collective-join reply (total is read back after the increment). -/
def joinMsg (crop : String) (total : ℚ) (lotId : Nat) : String :=
  "You have joined the collective lot for " ++ crop ++ ". Total quantity is now " ++
    floatRepr total ++ "kg. Collective Lot ID: " ++ toString lotId

/-- The new-collective-lot reply. -/
def newCollMsg (crop : String) (lotId : Nat) : String :=
  "New collective lot for " ++ crop ++ " created. Lot ID: " ++ toString lotId ++ "."

/-- The fresh collective lot a COLLECTIVE command creates when no open
collective lot for the crop exists: quantity as declared, default `open`
status, no minimum price, membership list `[uid]`. -/
def newCollLot (uid lotId : Nat) (crop : String) (q : ℚ) : Lot :=
  { id := lotId, farmer_id := uid, crop_type := crop, quantity_kg := q,
    min_price := none, status := ("open"), is_collective := true, members := [uid] }

/-- The `collective` branch of `sms_handler`.  `district = parts[3]` raises
`IndexError` inside the `try` when only 3 tokens are present, which the
handler reports as a format error before touching any state. -/
def handleCollective (code phone : String) (parts : List String) (db : DB) : SmsResult :=
  let crop := parts.getD 1 ""
  match parseFloat (parts.getD 2 "") with
  | none => { reply := collectiveInvalidMsg, db := db, sms := [], events := [] }
  | some quantity =>
    if 3 < parts.length then
      let district := parts.getD 3 ""
      let ucr := get_or_create_user phone ("farmer") (some district) code db
      let db1 := ucr.2.1
      match db1.lots.find? (collMatch crop) with
      | some clot =>
        let joinedLots :=
          updateFirst (collMatch crop)
            (fun l => { l with members := l.members ++ [ucr.1.id],
                               quantity_kg := l.quantity_kg + quantity }) db1.lots
        let db2 := { db1 with lots := joinedLots }
        { reply := joinMsg crop (clot.quantity_kg + quantity) clot.id, db := db2,
          sms := ucr.2.2, events := [] }
      | none =>
        let newLot : Lot := newCollLot ucr.1.id db1.nextLotId crop quantity
        { reply := newCollMsg crop newLot.id,
          db := { db1 with lots := db1.lots ++ [newLot], nextLotId := db1.nextLotId + 1 },
          sms := ucr.2.2, events := [] }
    else { reply := collectiveInvalidMsg, db := db, sms := [], events := [] }

/-- `sms_handler` of `app.py`: tokenize the body, dispatch on the first
token together with the per-command token-count guard, else reply with the
generic help text.  `code` stands for the login code that would be randomly
generated if this request creates a user. -/
def sms_handler (code body phone : String) (db : DB) : SmsResult :=
  let parts := partsOf body
  let command := parts.headD ""
  if command == "list" && decide (3 ≤ parts.length) then handleList code phone parts db
  else if command == "bid" && decide (parts.length = 3) then handleBid code phone parts db
  else if command == "collective" && decide (3 ≤ parts.length) then
    handleCollective code phone parts db
  else { reply := helpMsg, db := db, sms := [], events := [] }

/-- The bids of one lot, in insertion order. -/
def bidsFor (db : DB) (lotId : Nat) : List Bid :=
  db.bids.filter (fun b => b.lot_id == lotId)

/-- `db.session.query(func.max(Bid.bid_amount)).filter_by(lot_id=...).scalar() or 0`:
the maximum bid amount, with `0` both for the empty case (`None or 0`) and
for a zero maximum (`0.0 or 0`), which coincide with `getD 0`. -/
def highest_bid (db : DB) (lotId : Nat) : ℚ :=
  (((bidsFor db lotId).map (fun b => b.bid_amount)).max?).getD 0

/-- One entry of the `GET /api/v1/lots` response. -/
structure LotView where
  id : Nat
  crop_type : String
  quantity_kg : ℚ
  min_price : Option ℚ
  highest_bid : ℚ
deriving DecidableEq

/-- `get_all_lots` of `app.py`: the open lots with their highest bids. -/
def get_all_lots (db : DB) : List LotView :=
  (db.lots.filter (fun l => l.status == "open")).map (fun l =>
    { id := l.id, crop_type := l.crop_type, quantity_kg := l.quantity_kg,
      min_price := l.min_price, highest_bid := highest_bid db l.id })

/-- Result of `POST /api/v1/confirm_sale/<lot_id>`. -/
structure ConfirmResult where
  status : Nat
  message : String
  db : DB
  sms : List (String × String)
deriving DecidableEq

/-- Mark the first lot with the given id as sold. -/
def markSold (lot_id : Nat) (lots : List Lot) : List Lot :=
  updateFirst (fun l => l.id == lot_id) (fun l => { l with status := ("sold") }) lots

/-- The database after `lot.status = 'sold'; db.session.commit()`. -/
def soldDB (db : DB) (lot_id : Nat) : DB :=
  { db with lots := markSold lot_id db.lots }

/-- `confirm_sale` of `app.py`: 404 when the lot is missing; 400 when `not
highest_bid` (no bids, or a zero maximum).  Otherwise `lot.status = 'sold'`
is committed — and the endpoint then evaluates `...first().bidder`, but no
`bidder` (or `farmer`) relationship is declared on the models, so the
attribute access raises AttributeError: the request fails with HTTP 500
after the status commit and before any notification SMS is sent. -/
def confirm_sale (db : DB) (lot_id : Nat) : ConfirmResult :=
  match db.lots.find? (fun l => l.id == lot_id) with
  | none => { status := 404, message := ("Not Found"), db := db, sms := [] }
  | some lot =>
    if highest_bid db lot.id = 0 then
      { status := 400, message := ("No bids to confirm sale for this lot."), db := db, sms := [] }
    else
      { status := 500, message := (""), db := soldDB db lot_id, sms := [] }

/-- One inbound SMS request: the generated-code input and the webhook's
`From` and `Body` fields. -/
structure SmsIn where
  code : String
  phone : String
  body : String
deriving DecidableEq

/-- Run a sequence of inbound SMS requests, threading the database. -/
def runSms : List SmsIn → DB → DB
  | [], db => db
  | c :: rest, db => runSms rest (sms_handler c.code c.body c.phone db).db


set_option maxRecDepth 10000

/-! ### Example states used by witnesses and counterexamples -/

/-- The empty freshly-created database. -/
def db0 : DB :=
  { users := [], lots := [], bids := [], nextUserId := 1, nextLotId := 1, nextBidId := 1 }

/-- A registered farmer. -/
def exFarmer : User :=
  { id := 1, phone_number := ("+911"), user_type := ("farmer"), district := none,
    login_code := some ("111111111111") }

/-- A registered buyer. -/
def exBuyer : User :=
  { id := 2, phone_number := ("+922"), user_type := ("buyer"), district := none,
    login_code := some ("222222222222") }

/-- An open wheat lot whose stored minimum price is the falsy value 0. -/
def lotZeroMin : Lot :=
  { id := 1, farmer_id := 1, crop_type := ("wheat"), quantity_kg := 500, min_price := some 0,
    status := ("open"), is_collective := false, members := [] }

/-- State containing `lotZeroMin` and the two registered users. -/
def dbZeroMin : DB :=
  { users := [exFarmer, exBuyer], lots := [lotZeroMin], bids := [], nextUserId := 3,
    nextLotId := 2, nextBidId := 1 }

/-- An open wheat lot with the usual MSP minimum price. -/
def lotWheat : Lot :=
  { id := 1, farmer_id := 1, crop_type := ("wheat"), quantity_kg := 500, min_price := some 2275,
    status := ("open"), is_collective := false, members := [] }

/-- State containing `lotWheat` and the two registered users. -/
def dbWheat : DB :=
  { users := [exFarmer, exBuyer], lots := [lotWheat], bids := [], nextUserId := 3,
    nextLotId := 2, nextBidId := 1 }

/-- State with two bids of 2300 and 2350 on the wheat lot. -/
def dbTwoBids : DB :=
  { users := [exFarmer, exBuyer], lots := [lotWheat],
    bids := [{ id := 1, lot_id := 1, bidder_id := 2, bid_amount := 2300 },
             { id := 2, lot_id := 1, bidder_id := 2, bid_amount := 2350 }],
    nextUserId := 3, nextLotId := 2, nextBidId := 3 }

/-! ### Generic list lemmas -/

lemma find?_append_some {α : Type} (p : α → Bool) {l₁ : List α} (l₂ : List α) {x : α}
    (h : l₁.find? p = some x) : (l₁ ++ l₂).find? p = some x := by
  induction l₁ with
  | nil => simp [List.find?] at h
  | cons a l ih =>
    rw [List.cons_append, List.find?_cons] at *
    rcases hpa : p a with _ | _ <;> simp_all [hpa]

lemma find?_append_none {α : Type} (p : α → Bool) {l₁ : List α} (l₂ : List α)
    (h : l₁.find? p = none) : (l₁ ++ l₂).find? p = l₂.find? p := by
  induction l₁ with
  | nil => simp
  | cons a l ih =>
    rw [List.cons_append, List.find?_cons] at *
    rcases hpa : p a with _ | _ <;> simp_all [hpa]

/-! ### Lemmas about `get_or_create_user` -/

lemma gocu_lots (ph t : String) (d : Option String) (c : String) (db : DB) :
    (get_or_create_user ph t d c db).2.1.lots = db.lots := by
  unfold get_or_create_user
  cases db.users.find? (fun u => u.phone_number == ph) <;> rfl

lemma gocu_bids (ph t : String) (d : Option String) (c : String) (db : DB) :
    (get_or_create_user ph t d c db).2.1.bids = db.bids := by
  unfold get_or_create_user
  cases db.users.find? (fun u => u.phone_number == ph) <;> rfl

lemma gocu_nextLotId (ph t : String) (d : Option String) (c : String) (db : DB) :
    (get_or_create_user ph t d c db).2.1.nextLotId = db.nextLotId := by
  unfold get_or_create_user
  cases db.users.find? (fun u => u.phone_number == ph) <;> rfl

lemma gocu_users_shape (ph t : String) (d : Option String) (c : String) (db : DB) :
    (get_or_create_user ph t d c db).2.1.users = db.users
    ∨ (get_or_create_user ph t d c db).2.1.users
        = db.users ++ [(get_or_create_user ph t d c db).1] := by
  unfold get_or_create_user
  cases db.users.find? (fun u => u.phone_number == ph) with
  | none => right; rfl
  | some u => left; rfl

lemma gocu_found {ph : String} (t : String) (d : Option String) (c : String) {db : DB} {u : User}
    (h : db.users.find? (fun x => x.phone_number == ph) = some u) :
    get_or_create_user ph t d c db = (u, db, []) := by
  unfold get_or_create_user
  rw [h]

lemma gocu_find_mono (ph t : String) (d : Option String) (c : String) (db : DB)
    (q : User → Bool) {u : User} (h : db.users.find? q = some u) :
    (get_or_create_user ph t d c db).2.1.users.find? q = some u := by
  unfold get_or_create_user
  cases hf : db.users.find? (fun x => x.phone_number == ph) with
  | some w => simpa using h
  | none => exact find?_append_some q _ h

lemma gocu_find_self (ph t : String) (d : Option String) (c : String) (db : DB) :
    (get_or_create_user ph t d c db).2.1.users.find? (fun x => x.phone_number == ph)
      = some (get_or_create_user ph t d c db).1 := by
  unfold get_or_create_user
  cases hf : db.users.find? (fun x => x.phone_number == ph) with
  | some w => simpa using hf
  | none =>
    simp only []
    rw [find?_append_none _ _ hf]
    simp [List.find?_cons]

lemma gocu_welcome (ph t : String) (d : Option String) (c : String) (db : DB) :
    (get_or_create_user ph t d c db).2.2 = []
    ∨ (get_or_create_user ph t d c db).2.2 = [(ph, welcomeMsg c)] := by
  unfold get_or_create_user
  cases db.users.find? (fun u => u.phone_number == ph) with
  | none => right; rfl
  | some u => left; rfl

/-! ### Dispatch lemmas for `sms_handler` -/

lemma sms_handler_eq_bid (code body phone : String) (db : DB) (a b : String)
    (hparts : partsOf body = [("bid"), a, b]) :
    sms_handler code body phone db = handleBid code phone [("bid"), a, b] db := by
  unfold sms_handler
  rw [hparts]
  rfl

lemma sms_handler_eq_list (code body phone : String) (db : DB) (c q : String)
    (rest : List String) (hparts : partsOf body = ("list") :: c :: q :: rest) :
    sms_handler code body phone db = handleList code phone (("list") :: c :: q :: rest) db := by
  unfold sms_handler
  rw [hparts]
  have h3 : 3 ≤ (("list") :: c :: q :: rest).length := by simp
  simp [h3]

lemma sms_handler_eq_collective (code body phone : String) (db : DB) (c q : String)
    (rest : List String) (hparts : partsOf body = ("collective") :: c :: q :: rest) :
    sms_handler code body phone db
      = handleCollective code phone (("collective") :: c :: q :: rest) db := by
  unfold sms_handler
  rw [hparts]
  have h3 : 3 ≤ (("collective") :: c :: q :: rest).length := by simp
  simp [h3]


/-! ### Lemmas about `highest_bid` -/

instance : Std.Antisymm (fun a b : ℚ => a ≤ b) :=
  ⟨fun h h' => le_antisymm h h'⟩

lemma rat_max?_eq_some_iff {a : ℚ} {xs : List ℚ} :
    xs.max? = some a ↔ a ∈ xs ∧ ∀ b ∈ xs, b ≤ a :=
  List.max?_eq_some_iff (fun x => le_refl x) (fun x y => max_choice x y)
    (fun _ _ _ => max_le_iff)

/-- Claim C7: the highest-bid value (as computed for `GET /lots`, contract
generation and sale confirmation) is the maximum bid amount when the lot has
bids, and the sentinel 0 when it has none; the `GET /lots` views expose
exactly this value. -/
theorem highest_bid_C7 (db : DB) (lotId : Nat) :
    (bidsFor db lotId = [] → highest_bid db lotId = 0)
    ∧ (bidsFor db lotId ≠ [] →
        highest_bid db lotId ∈ (bidsFor db lotId).map (fun b => b.bid_amount)
        ∧ ∀ b ∈ bidsFor db lotId, b.bid_amount ≤ highest_bid db lotId)
    ∧ (∀ v ∈ get_all_lots db, v.highest_bid = highest_bid db v.id) := by
  refine ⟨fun h => ?_, fun h => ?_, fun v hv => ?_⟩
  · unfold highest_bid
    rw [h]
    rfl
  · have hne : ((bidsFor db lotId).map (fun b => b.bid_amount)) ≠ [] := by
      simpa using h
    cases hm : ((bidsFor db lotId).map (fun b => b.bid_amount)).max? with
    | none => exact absurd (List.max?_eq_none_iff.mp hm) hne
    | some m =>
      have hspec := rat_max?_eq_some_iff.mp hm
      have hval : highest_bid db lotId = m := by
        unfold highest_bid
        rw [hm]
        rfl
      rw [hval]
      refine ⟨hspec.1, fun b hb => hspec.2 b.bid_amount ?_⟩
      exact List.mem_map_of_mem _ hb
  · unfold get_all_lots at hv
    rcases List.mem_map.mp hv with ⟨l, hl, hvl⟩
    rw [← hvl]

/-- Witness for C7 at concrete states: the empty lot yields the sentinel 0,
and a lot with bids 3 and 7 yields a maximal member of its bid amounts. -/
theorem highest_bid_C7_witness :
    highest_bid db0 1 = 0
    ∧ (highest_bid dbTwoBids 1 ∈ (bidsFor dbTwoBids 1).map (fun b => b.bid_amount)
        ∧ ∀ b ∈ bidsFor dbTwoBids 1, b.bid_amount ≤ highest_bid dbTwoBids 1) :=
  ⟨(highest_bid_C7 db0 1).1 rfl,
   (highest_bid_C7 dbTwoBids 1).2.1 (by with_unfolding_all decide)⟩

/-! ### Claim C1 -/

/-- Claim C1: a BID strictly below a stored minimum price persists no Bid
record and emits no `bid_update` event, for every stored minimum price
value including 0.  For a nonzero minimum the handler rejects the bid; for
a stored minimum of 0 the truthiness guard `if lot.min_price and ...`
skips the check, but the Bid INSERT then raises on the defective
`timestamp` default, so nothing is persisted and no event fires either. -/
theorem C1_below_min (code body phone : String) (db : DB) (lidS amtS : String)
    (lid : Int) (amt p : ℚ) (lot : Lot)
    (hparts : partsOf body = [("bid"), lidS, amtS])
    (hlid : parseInt lidS = some lid)
    (hamt : parseFloat amtS = some amt)
    (hfind : db.lots.find? (fun l => ((l.id : Int) == lid)) = some lot)
    (hopen : lot.status = ("open"))
    (_hmin : lot.min_price = some p) (_hlt : amt < p) :
    (sms_handler code body phone db).db.bids = db.bids
    ∧ (sms_handler code body phone db).events = [] := by
  rw [sms_handler_eq_bid code body phone db lidS amtS hparts]
  unfold handleBid
  have hg1 : ([("bid"), lidS, amtS].getD 1 ("")) = lidS := rfl
  have hg2 : ([("bid"), lidS, amtS].getD 2 ("")) = amtS := rfl
  rw [hg1, hg2, hlid, hamt]
  dsimp only
  rw [gocu_lots, hfind]
  dsimp only
  rw [if_neg (by simp [hopen])]
  by_cases hb : minPriceBlocks lot.min_price amt = true
  · rw [if_pos hb]
    exact ⟨gocu_bids _ _ _ _ _, rfl⟩
  · rw [if_neg hb]
    exact ⟨gocu_bids _ _ _ _ _, rfl⟩

/-- Witness for C1 at both regimes: a bid of 2000 below the nonzero
minimum 2275 (rejected by the check), and a bid of -5 below the stored
minimum 0 (check skipped, INSERT crashes) — in both cases no Bid is
persisted and no event is emitted. -/
theorem C1_below_min_witness :
    ((sms_handler ("0") ("bid 1 2000") ("+922") dbWheat).db.bids = dbWheat.bids
      ∧ (sms_handler ("0") ("bid 1 2000") ("+922") dbWheat).events = [])
    ∧ ((sms_handler ("0") ("bid 1 -5") ("+922") dbZeroMin).db.bids = dbZeroMin.bids
      ∧ (sms_handler ("0") ("bid 1 -5") ("+922") dbZeroMin).events = []) :=
  ⟨C1_below_min ("0") ("bid 1 2000") ("+922") dbWheat ("1") ("2000") 1 2000 2275 lotWheat
     (by decide) (by with_unfolding_all decide) (by with_unfolding_all decide)
     (by with_unfolding_all decide) rfl rfl (by norm_num),
   C1_below_min ("0") ("bid 1 -5") ("+922") dbZeroMin ("1") ("-5") 1 (-5) 0 lotZeroMin
     (by decide) (by with_unfolding_all decide) (by with_unfolding_all decide)
     (by with_unfolding_all decide) rfl rfl (by norm_num)⟩

/-! ### Claim C2 -/

/-- Claim C2 fails as stated: a BID for a nonexistent lot from an unknown
phone number does return the informative reply, but it creates a User row
for the sender (the buyer is registered before any precondition check), so
"no User, Lot, or Bid record is created" is violated. -/
theorem C2_counterexample :
    (sms_handler ("123456789012") ("bid 99 100") ("+933") db0).reply = lotUnavailableMsg
    ∧ db0.users = []
    ∧ (sms_handler ("123456789012") ("bid 99 100") ("+933") db0).db.users =
        [{ id := 1, phone_number := ("+933"), user_type := ("buyer"), district := none,
           login_code := some ("123456789012") }] := by
  with_unfolding_all decide

/-- Claim C2 (amended): when a BID command fails a precondition (missing
lot, lot not open, or amount below a nonzero minimum), no Lot or Bid record
is created or modified and an informative reply is returned; a User record
for the sender may still be created, since the buyer is registered before
the checks. -/
theorem C2_amended (code body phone : String) (db : DB) (lidS amtS : String)
    (lid : Int) (amt : ℚ)
    (hparts : partsOf body = [("bid"), lidS, amtS])
    (hlid : parseInt lidS = some lid)
    (hamt : parseFloat amtS = some amt)
    (hfail : db.lots.find? (fun l => ((l.id : Int) == lid)) = none
      ∨ ∃ lot, db.lots.find? (fun l => ((l.id : Int) == lid)) = some lot
          ∧ (lot.status ≠ ("open") ∨ minPriceBlocks lot.min_price amt = true)) :
    (sms_handler code body phone db).db.lots = db.lots
    ∧ (sms_handler code body phone db).db.bids = db.bids
    ∧ (sms_handler code body phone db).events = []
    ∧ ((sms_handler code body phone db).reply = lotUnavailableMsg
       ∨ ∃ mp, (sms_handler code body phone db).reply = tooLowMsg mp) := by
  rw [sms_handler_eq_bid code body phone db lidS amtS hparts]
  unfold handleBid
  have hg1 : ([("bid"), lidS, amtS].getD 1 ("")) = lidS := rfl
  have hg2 : ([("bid"), lidS, amtS].getD 2 ("")) = amtS := rfl
  rw [hg1, hg2, hlid, hamt]
  simp only []
  rw [gocu_lots]
  rcases hfail with hnone | ⟨lot, hsome, hbad⟩
  · rw [hnone]
    simp [gocu_lots, gocu_bids]
  · rw [hsome]
    by_cases hst : lot.status = ("open")
    · have hblocks : minPriceBlocks lot.min_price amt = true := by
        rcases hbad with h | h
        · exact absurd hst h
        · exact h
      simp [hst, hblocks, gocu_lots, gocu_bids]
    · simp [hst, gocu_lots, gocu_bids]

/-- Witness for the amended C2: a BID on a missing lot leaves lots and bids
unchanged and replies informatively. -/
theorem C2_amended_witness :
    (sms_handler ("1") ("bid 99 100") ("+933") db0).db.lots = db0.lots
    ∧ (sms_handler ("1") ("bid 99 100") ("+933") db0).db.bids = db0.bids
    ∧ (sms_handler ("1") ("bid 99 100") ("+933") db0).events = []
    ∧ ((sms_handler ("1") ("bid 99 100") ("+933") db0).reply = lotUnavailableMsg
       ∨ ∃ mp, (sms_handler ("1") ("bid 99 100") ("+933") db0).reply = tooLowMsg mp) :=
  C2_amended ("1") ("bid 99 100") ("+933") db0 ("99") ("100") 99 100
    (by decide) (by with_unfolding_all decide) (by with_unfolding_all decide)
    (Or.inl rfl)


/-! ### Lemmas about `updateFirst` -/

lemma updateFirst_cons_pos {p : Lot → Bool} {f : Lot → Lot} {a : Lot} (t : List Lot)
    (h : p a = true) : updateFirst p f (a :: t) = f a :: t := by
  show (if p a = true then f a :: t else a :: updateFirst p f t) = f a :: t
  rw [h]
  simp

lemma updateFirst_cons_neg {p : Lot → Bool} {f : Lot → Lot} {a : Lot} (t : List Lot)
    (h : p a = false) : updateFirst p f (a :: t) = a :: updateFirst p f t := by
  show (if p a = true then f a :: t else a :: updateFirst p f t) = a :: updateFirst p f t
  rw [h]
  simp

lemma updateFirst_of_find? {p : Lot → Bool} (f : Lot → Lot) {l : List Lot} {x : Lot}
    (h : l.find? p = some x) : f x ∈ updateFirst p f l := by
  induction l with
  | nil => simp [List.find?] at h
  | cons a t ih =>
    rw [List.find?_cons] at h
    cases hpa : p a with
    | true =>
      rw [hpa] at h
      simp at h
      rw [updateFirst_cons_pos t hpa, h]
      exact List.mem_cons_self _ _
    | false =>
      rw [hpa] at h
      simp at h
      rw [updateFirst_cons_neg t hpa]
      exact List.mem_cons_of_mem _ (ih h)

lemma updateFirst_append_none {p : Lot → Bool} (f : Lot → Lot) {l₁ : List Lot} (l₂ : List Lot)
    (h : ∀ x ∈ l₁, p x = false) : updateFirst p f (l₁ ++ l₂) = l₁ ++ updateFirst p f l₂ := by
  induction l₁ with
  | nil => simp
  | cons a t ih =>
    have ha : p a = false := h a (List.mem_cons_self _ _)
    rw [List.cons_append, updateFirst_cons_neg _ ha, ih (fun x hx => h x (List.mem_cons_of_mem _ hx))]
    simp

/-! ### Lemmas about `highest_bid` bounds -/

lemma highest_bid_ge {db : DB} {lotId : Nat} {b : Bid} (hb : b ∈ bidsFor db lotId) :
    b.bid_amount ≤ highest_bid db lotId := by
  have hmem : b.bid_amount ∈ (bidsFor db lotId).map (fun x => x.bid_amount) :=
    List.mem_map_of_mem _ hb
  have hne : ((bidsFor db lotId).map (fun x => x.bid_amount)) ≠ [] :=
    List.ne_nil_of_mem hmem
  cases hm : ((bidsFor db lotId).map (fun x => x.bid_amount)).max? with
  | none => exact absurd (List.max?_eq_none_iff.mp hm) hne
  | some m =>
    have hval : highest_bid db lotId = m := by
      unfold highest_bid
      rw [hm]
      rfl
    rw [hval]
    exact (rat_max?_eq_some_iff.mp hm).2 _ hmem

/-! ### Claims C3 and C9: `confirm_sale` -/

/-- A lot with a single bid of amount 0 (reachable: a lot listed with an
unknown crop has `min_price = None`, so a BID of 0 is accepted). -/
def lotOkra : Lot :=
  { id := 1, farmer_id := 1, crop_type := ("okra"), quantity_kg := 10,
    min_price := none, status := ("open"), is_collective := false, members := [] }

def dbZeroBid : DB :=
  { users := [exFarmer, exBuyer], lots := [lotOkra],
    bids := [{ id := 1, lot_id := 1, bidder_id := 2, bid_amount := 0 }],
    nextUserId := 3, nextLotId := 2, nextBidId := 2 }

/-- Claim C3 fails as stated: `confirm_sale` tests `not highest_bid`, and a
lot holding one bid of amount 0 has a truthy-false highest bid, so the call
fails with 400 even though the lot does have bids. -/
theorem C3_counterexample :
    bidsFor dbZeroBid 1 ≠ []
    ∧ (confirm_sale dbZeroBid 1).status = 400
    ∧ (confirm_sale dbZeroBid 1).sms = []
    ∧ (confirm_sale dbZeroBid 1).db = dbZeroBid := by
  with_unfolding_all decide

/-- Claim C3 (amended): for an existing lot, `POST /confirm_sale` fails
(HTTP 400, no notifications, no state change — the status stays whatever
it was) if and only if the lot's highest-bid value is 0, i.e. it has no
bids or the maximum bid amount is 0; otherwise the lot's status is
committed to `sold`, but the request then raises AttributeError on the
undeclared `bidder`/`farmer` relationships and fails with HTTP 500 before
any notification SMS is sent, so neither party is ever notified. -/
theorem C3_amended (db : DB) (lotId : Nat) (lot : Lot)
    (hfind : db.lots.find? (fun l => l.id == lotId) = some lot) :
    (highest_bid db lot.id = 0 →
      (confirm_sale db lotId).status = 400
      ∧ (confirm_sale db lotId).db = db
      ∧ (confirm_sale db lotId).sms = [])
    ∧ (highest_bid db lot.id ≠ 0 →
      (confirm_sale db lotId).status = 500
      ∧ (confirm_sale db lotId).db.lots = markSold lotId db.lots
      ∧ (∃ l ∈ (confirm_sale db lotId).db.lots, l.id = lot.id ∧ l.status = ("sold"))
      ∧ (confirm_sale db lotId).sms = []) := by
  constructor
  · intro h0
    unfold confirm_sale
    rw [hfind]
    dsimp only
    rw [if_pos h0]
    exact ⟨rfl, rfl, rfl⟩
  · intro hne
    unfold confirm_sale
    rw [hfind]
    dsimp only
    rw [if_neg hne]
    refine ⟨rfl, rfl, ?_, rfl⟩
    have hmem := updateFirst_of_find? (fun l => { l with status := ("sold") }) hfind
    exact ⟨{ lot with status := ("sold") }, hmem, rfl, rfl⟩

/-- Witness for the amended C3, both directions at concrete states: the
zero-bid lot fails with 400 and unchanged state; the two-bid lot is marked
sold and the request then dies with 500 and no notification. -/
theorem C3_amended_witness :
    ((confirm_sale dbZeroBid 1).status = 400
      ∧ (confirm_sale dbZeroBid 1).db = dbZeroBid
      ∧ (confirm_sale dbZeroBid 1).sms = [])
    ∧ ((confirm_sale dbTwoBids 1).status = 500
      ∧ (confirm_sale dbTwoBids 1).db.lots = markSold 1 dbTwoBids.lots
      ∧ (∃ l ∈ (confirm_sale dbTwoBids 1).db.lots, l.id = lotWheat.id ∧ l.status = ("sold"))
      ∧ (confirm_sale dbTwoBids 1).sms = []) :=
  ⟨(C3_amended dbZeroBid 1 lotOkra (by with_unfolding_all decide)).1
     (by with_unfolding_all decide),
   (C3_amended dbTwoBids 1 lotWheat (by with_unfolding_all decide)).2
     (by with_unfolding_all decide)⟩

/-- A copy of the two-bid state whose lot is already sold. -/
def dbSold : DB :=
  { dbTwoBids with lots := [{ lotWheat with status := ("sold") }] }

/-- Claim C9 fails as stated: on an already-sold lot with a positive bid,
`confirm_sale` does ignore the status, but it does not succeed and
re-send the two notification SMS messages — the status stays `sold` and
the request fails with HTTP 500 (AttributeError at `.first().bidder`)
having sent nothing. -/
theorem C9_counterexample :
    (∃ l ∈ dbSold.lots, l.id = 1 ∧ l.status = ("sold"))
    ∧ (∃ b ∈ dbSold.bids, b.lot_id = 1 ∧ 0 < b.bid_amount)
    ∧ (confirm_sale dbSold 1).status = 500
    ∧ (confirm_sale dbSold 1).sms = [] := by
  with_unfolding_all decide

/-- Claim C9 (amended): `confirm_sale` never inspects the lot's status —
any existing lot with a bid of positive amount, even one already `sold`,
has its status committed to `sold` (again); the request then fails with
HTTP 500 on the undeclared relationship attributes, so no notification SMS
is (re)sent.  No hypothesis constrains the current status. -/
theorem C9_amended (db : DB) (lotId : Nat) (lot : Lot) (b : Bid)
    (hfind : db.lots.find? (fun l => l.id == lotId) = some lot)
    (hb : b ∈ db.bids) (hbl : b.lot_id = lot.id) (hpos : 0 < b.bid_amount) :
    (confirm_sale db lotId).status = 500
    ∧ (∃ l ∈ (confirm_sale db lotId).db.lots, l.id = lot.id ∧ l.status = ("sold"))
    ∧ (confirm_sale db lotId).sms = [] := by
  have hbmem : b ∈ bidsFor db lot.id := by
    unfold bidsFor
    rw [List.mem_filter]
    exact ⟨hb, by simp [hbl]⟩
  have hne : highest_bid db lot.id ≠ 0 := by
    have := highest_bid_ge hbmem
    intro h0
    rw [h0] at this
    exact absurd (lt_of_lt_of_le hpos this) (lt_irrefl 0)
  unfold confirm_sale
  rw [hfind]
  dsimp only
  rw [if_neg hne]
  refine ⟨rfl, ?_, rfl⟩
  have hmem := updateFirst_of_find? (fun l => { l with status := ("sold") }) hfind
  exact ⟨{ lot with status := ("sold") }, hmem, rfl, rfl⟩

/-- Witness for the amended C9 on the already-sold lot: confirming again
re-commits `sold`, returns 500 and sends nothing. -/
theorem C9_amended_witness :
    (confirm_sale dbSold 1).status = 500
    ∧ (∃ l ∈ (confirm_sale dbSold 1).db.lots,
        l.id = ({ lotWheat with status := ("sold") } : Lot).id ∧ l.status = ("sold"))
    ∧ (confirm_sale dbSold 1).sms = [] :=
  C9_amended dbSold 1 { lotWheat with status := ("sold") }
    { id := 1, lot_id := 1, bidder_id := 2, bid_amount := 2300 }
    (by with_unfolding_all decide) (by with_unfolding_all decide)
    (by with_unfolding_all decide) (by norm_num)

/-! ### Claim C5: the Bid INSERT crash -/

/-- Claim C5 describes the intended behaviour (accepted bids are persisted
and a single advisory below-MSP alert goes to the farmer), but the code
cannot reach it: at a BID that passes every check — here `bid 1 2000` from
the registered buyer on the open wheat lot with stored minimum 0, an
amount strictly below wheat's MSP of 2275 — the Bid INSERT raises on the
defective `timestamp` default and the request fails with HTTP 500: no Bid
is persisted, no `bid_update` event is emitted and no alert SMS is sent. -/
theorem C5_insert_crash :
    lotZeroMin.status = ("open") ∧ (2000 : ℚ) < 2275
    ∧ (sms_handler ("0") ("bid 1 2000") ("+922") dbZeroMin).status = 500
    ∧ (sms_handler ("0") ("bid 1 2000") ("+922") dbZeroMin).db.bids = dbZeroMin.bids
    ∧ (sms_handler ("0") ("bid 1 2000") ("+922") dbZeroMin).sms = []
    ∧ (sms_handler ("0") ("bid 1 2000") ("+922") dbZeroMin).events = [] := by
  with_unfolding_all decide

/-- The lot that `LIST wheat 500` creates in the empty state. -/
def exWheatLotNew : Lot :=
  { id := 1, farmer_id := 1, crop_type := ("wheat"), quantity_kg := 500,
    min_price := some 2275, status := ("open"), is_collective := false, members := [] }

/-! ### Claim C6: LIST creates a lot -/

/-- Claim C6: a valid LIST command appends exactly one new open,
non-collective lot whose quantity is the parsed quantity and whose minimum
price is the explicit fourth token when present, else the crop's MSP (none
for an unknown crop); and concretely, `LIST wheat 500` replies "Lot listed!
Crop: wheat, Quantity: 500.0kg. Lot ID: 1 at your minimum price of
Rs. 2275." — which contains the quoted fragment — and stores
min_price 2275. -/
theorem C6_list_creates_lot (code body phone : String) (crop qtyS : String)
    (rest : List String) (qty : ℚ) (mp : Option ℚ) (db : DB)
    (hparts : partsOf body = ("list") :: crop :: qtyS :: rest)
    (hqty : parseFloat qtyS = some qty)
    (hmp : (rest = [] ∧ mp = mspGet crop)
        ∨ (∃ pS t p, rest = pS :: t ∧ parseFloat pS = some p ∧ mp = some p)) :
    (∃ L, (sms_handler code body phone db).db.lots = db.lots ++ [L]
      ∧ L.status = ("open") ∧ L.is_collective = false
      ∧ L.quantity_kg = qty ∧ L.min_price = mp ∧ L.crop_type = crop)
    ∧ (sms_handler ("123456789012") ("LIST wheat 500") ("+911") db0).reply
        = ("Lot listed! Crop: wheat, Quantity: 500.0kg. Lot ID: 1 at your minimum price of Rs. 2275.")
    ∧ (∃ L, (sms_handler ("123456789012") ("LIST wheat 500") ("+911") db0).db.lots = [L]
        ∧ L.min_price = some 2275) := by
  refine ⟨?_, by with_unfolding_all decide, ?_⟩
  · rw [sms_handler_eq_list code body phone db crop qtyS rest hparts]
    unfold handleList
    dsimp only
    have hg1 : ((("list") :: crop :: qtyS :: rest).getD 1 ("")) = crop := rfl
    have hg2 : ((("list") :: crop :: qtyS :: rest).getD 2 ("")) = qtyS := rfl
    rw [hg1, hg2, hqty]
    dsimp only
    rcases hmp with ⟨hrest, hval⟩ | ⟨pS, t, p, hrest, hpS, hval⟩
    · subst hrest
      subst hval
      have hlp : listMinPrice crop [("list"), crop, qtyS] = some (mspGet crop, false) := by
        unfold listMinPrice
        rw [if_neg (by norm_num)]
      rw [hlp]
      dsimp only
      simp only [gocu_lots]
      exact ⟨_, rfl, rfl, rfl, rfl, rfl, rfl⟩
    · subst hrest
      subst hval
      have hlp : listMinPrice crop (("list") :: crop :: qtyS :: pS :: t)
          = some (some p, true) := by
        unfold listMinPrice
        rw [if_pos (by simp)]
        have hg3 : ((("list") :: crop :: qtyS :: pS :: t).getD 3 ("")) = pS := rfl
        rw [hg3, hpS]
        rfl
      rw [hlp]
      dsimp only
      simp only [gocu_lots]
      exact ⟨_, rfl, rfl, rfl, rfl, rfl, rfl⟩
  · exact ⟨exWheatLotNew, by with_unfolding_all decide, by with_unfolding_all decide⟩

/-- Witness for C6: `list rice 80 2300` appends one open lot of 80 kg at
the explicit minimum price 2300. -/
theorem C6_list_creates_lot_witness :
    ∃ L, (sms_handler ("1") ("list rice 80 2300") ("+911") db0).db.lots = db0.lots ++ [L]
      ∧ L.status = ("open") ∧ L.is_collective = false
      ∧ L.quantity_kg = 80 ∧ L.min_price = some 2300 ∧ L.crop_type = ("rice") :=
  (C6_list_creates_lot ("1") ("list rice 80 2300") ("+911") ("rice") ("80")
    [("2300")] 80 (some 2300) db0 (by decide) (by with_unfolding_all decide)
    (Or.inr ⟨("2300"), [], 2300, rfl, by with_unfolding_all decide, rfl⟩)).1

/-! ### Claim C8: format errors vs the generic help reply -/

/-- A well-formed COLLECTIVE command body for `crop` declaring quantity `q`. -/
def collCmdOk (crop : String) (c : SmsIn) (q : ℚ) : Prop :=
  ∃ qs ds tail, partsOf c.body = ("collective") :: crop :: qs :: ds :: tail
    ∧ parseFloat qs = some q

lemma collective_join (crop : String) (c : SmsIn) (q : ℚ)
    (hc : collCmdOk crop c q) (db : DB) (pre : List Lot) (L : Lot)
    (hdb : db.lots = pre ++ [L])
    (hpre : ∀ l ∈ pre, collMatch crop l = false)
    (hL : collMatch crop L = true) :
    ∃ u1 : User,
      (sms_handler c.code c.body c.phone db).db.lots
        = pre ++ [{ L with members := L.members ++ [u1.id],
                           quantity_kg := L.quantity_kg + q }]
      ∧ (sms_handler c.code c.body c.phone db).db.users.find?
          (fun x => x.phone_number == c.phone) = some u1
      ∧ (∀ u, db.users.find? (fun x => x.phone_number == c.phone) = some u → u1 = u)
      ∧ (∀ qq : User → Bool, ∀ u, db.users.find? qq = some u →
          (sms_handler c.code c.body c.phone db).db.users.find? qq = some u) := by
  obtain ⟨qs, ds, tail, hparts, hq⟩ := hc
  rw [sms_handler_eq_collective c.code c.body c.phone db crop qs (ds :: tail) hparts]
  unfold handleCollective
  dsimp only
  have hg1 : ((("collective") :: crop :: qs :: ds :: tail).getD 1 ("")) = crop := rfl
  have hg2 : ((("collective") :: crop :: qs :: ds :: tail).getD 2 ("")) = qs := rfl
  have hg3 : ((("collective") :: crop :: qs :: ds :: tail).getD 3 ("")) = ds := rfl
  rw [hg1, hg2, hg3, hq]
  dsimp only
  rw [if_pos (by simp)]
  have hfind : (get_or_create_user c.phone ("farmer") (some ds) c.code db).2.1.lots.find?
      (collMatch crop) = some L := by
    rw [gocu_lots, hdb, find?_append_none _ _ (List.find?_eq_none.mpr ?hn)]
    case hn =>
      intro x hx
      simp [hpre x hx]
    exact List.find?_cons_of_pos _ hL
  rw [hfind]
  dsimp only
  refine ⟨(get_or_create_user c.phone ("farmer") (some ds) c.code db).1, ?_, ?_, ?_, ?_⟩
  · show updateFirst (collMatch crop) _
        (get_or_create_user c.phone ("farmer") (some ds) c.code db).2.1.lots = _
    rw [gocu_lots, hdb, updateFirst_append_none _ _ hpre, updateFirst_cons_pos _ hL]
  · exact gocu_find_self _ _ _ _ _
  · intro u hu
    rw [gocu_found ("farmer") (some ds) c.code hu]
  · intro qq u hu
    exact gocu_find_mono _ _ _ _ _ qq hu

lemma collective_create (crop : String) (c : SmsIn) (q : ℚ)
    (hc : collCmdOk crop c q) (db : DB)
    (hnm : ∀ l ∈ db.lots, collMatch crop l = false) :
    ∃ (u1 : User) (L : Lot),
      (sms_handler c.code c.body c.phone db).db.lots = db.lots ++ [L]
      ∧ collMatch crop L = true
      ∧ L.is_collective = true ∧ L.crop_type = crop ∧ L.status = ("open")
      ∧ L.quantity_kg = q ∧ L.members = [u1.id]
      ∧ (sms_handler c.code c.body c.phone db).db.users.find?
          (fun x => x.phone_number == c.phone) = some u1
      ∧ (∀ qq : User → Bool, ∀ u, db.users.find? qq = some u →
          (sms_handler c.code c.body c.phone db).db.users.find? qq = some u) := by
  obtain ⟨qs, ds, tail, hparts, hq⟩ := hc
  rw [sms_handler_eq_collective c.code c.body c.phone db crop qs (ds :: tail) hparts]
  unfold handleCollective
  dsimp only
  have hg1 : ((("collective") :: crop :: qs :: ds :: tail).getD 1 ("")) = crop := rfl
  have hg2 : ((("collective") :: crop :: qs :: ds :: tail).getD 2 ("")) = qs := rfl
  have hg3 : ((("collective") :: crop :: qs :: ds :: tail).getD 3 ("")) = ds := rfl
  rw [hg1, hg2, hg3, hq]
  dsimp only
  rw [if_pos (by simp)]
  have hfind : (get_or_create_user c.phone ("farmer") (some ds) c.code db).2.1.lots.find?
      (collMatch crop) = none := by
    rw [gocu_lots]
    exact List.find?_eq_none.mpr (fun x hx => by simp [hnm x hx])
  rw [hfind]
  dsimp only
  refine ⟨(get_or_create_user c.phone ("farmer") (some ds) c.code db).1,
    newCollLot (get_or_create_user c.phone ("farmer") (some ds) c.code db).1.id
      (get_or_create_user c.phone ("farmer") (some ds) c.code db).2.1.nextLotId crop q,
    ?_, ?_, rfl, rfl, rfl, rfl, rfl, ?_, ?_⟩
  · show (get_or_create_user c.phone ("farmer") (some ds) c.code db).2.1.lots ++ _
        = db.lots ++ _
    rw [gocu_lots]
  · show collMatch crop _ = true
    unfold collMatch newCollLot
    simp
  · exact gocu_find_self _ _ _ _ _
  · intro qq u hu
    exact gocu_find_mono _ _ _ _ _ qq hu

lemma runSms_coll_chain (crop : String) :
    ∀ (cmds : List SmsIn) (qtys : List ℚ), List.Forall₂ (collCmdOk crop) cmds qtys →
    ∀ (db : DB) (pre : List Lot) (L : Lot),
      db.lots = pre ++ [L] →
      (∀ l ∈ pre, collMatch crop l = false) →
      collMatch crop L = true →
      ∃ ids : List Nat,
        ids.length = cmds.length
        ∧ (runSms cmds db).lots
            = pre ++ [{ L with quantity_kg := L.quantity_kg + qtys.sum,
                               members := L.members ++ ids }]
        ∧ (∀ phone u, db.users.find? (fun x => x.phone_number == phone) = some u →
            (∀ c ∈ cmds, c.phone = phone) → ids = List.replicate cmds.length u.id) := by
  intro cmds qtys hwf
  induction hwf with
  | nil =>
    intro db pre L hdb hpre hL
    refine ⟨[], rfl, ?_, fun phone u hu hall => rfl⟩
    show db.lots = _
    rw [hdb]
    simp
  | @cons c q cs qs2 hcq hrest ih =>
    intro db pre L hdb hpre hL
    obtain ⟨u1, hlots, hself, hagree, hmono⟩ :=
      collective_join crop c q hcq db pre L hdb hpre hL
    have hmatch' : collMatch crop
        { L with members := L.members ++ [u1.id], quantity_kg := L.quantity_kg + q }
          = true := hL
    obtain ⟨ids, hlen, hlots', hrep⟩ :=
      ih (sms_handler c.code c.body c.phone db).db pre _ hlots hpre hmatch'
    refine ⟨u1.id :: ids, by simp [hlen], ?_, ?_⟩
    · show (runSms cs (sms_handler c.code c.body c.phone db).db).lots = _
      rw [hlots']
      simp [List.append_assoc, add_assoc]
    · intro phone u hu hall
      have hcphone : c.phone = phone := hall c (List.mem_cons_self _ _)
      have hu1 : u1 = u := hagree u (by rw [hcphone]; exact hu)
      have hufind : (sms_handler c.code c.body c.phone db).db.users.find?
          (fun x => x.phone_number == phone) = some u := by
        rw [← hcphone, hself, hu1]
      have hids := hrep phone u hufind (fun x hx => hall x (List.mem_cons_of_mem _ hx))
      rw [hids, hu1]
      simp [List.replicate_succ]

lemma runSms_coll_state (crop : String) (cmds : List SmsIn) (qtys : List ℚ)
    (hwf : List.Forall₂ (collCmdOk crop) cmds qtys) (hne : cmds ≠ [])
    (db : DB) (hnm : ∀ l ∈ db.lots, collMatch crop l = false) :
    ∃ L, (runSms cmds db).lots = db.lots ++ [L]
      ∧ collMatch crop L = true
      ∧ L.is_collective = true ∧ L.crop_type = crop ∧ L.status = ("open")
      ∧ L.quantity_kg = qtys.sum ∧ L.members.length = cmds.length := by
  cases hwf with
  | nil => exact absurd rfl hne
  | @cons c q cs qs2 hcq hrest =>
    obtain ⟨u1, L0, hlots0, hm0, hic, hct, hst, hq0, hmem0, hself0, hmono0⟩ :=
      collective_create crop c q hcq db hnm
    obtain ⟨ids, hlen, hlots', hrep⟩ :=
      runSms_coll_chain crop cs qs2 hrest
        (sms_handler c.code c.body c.phone db).db db.lots L0 hlots0 hnm hm0
    refine ⟨_, hlots', ?_, ?_, ?_, ?_, ?_, ?_⟩
    · exact hm0
    · exact hic
    · exact hct
    · exact hst
    · show L0.quantity_kg + qs2.sum = (q :: qs2).sum
      rw [hq0, List.sum_cons]
    · show (L0.members ++ ids).length = (c :: cs).length
      rw [List.length_append, hmem0, hlen]
      simp [Nat.add_comm]

lemma forall2_take {α β : Type} {R : α → β → Prop} :
    ∀ (n : Nat) {l₁ : List α} {l₂ : List β}, List.Forall₂ R l₁ l₂ →
      List.Forall₂ R (l₁.take n) (l₂.take n) := by
  intro n l₁ l₂ h
  induction h generalizing n with
  | nil => simp [List.Forall₂.nil]
  | cons h₁ h₂ ih =>
    cases n with
    | zero => simp [List.Forall₂.nil]
    | succ m =>
      simp only [List.take_succ_cons]
      exact List.Forall₂.cons h₁ (ih m)

lemma forall2_mem_left {α β : Type} {R : α → β → Prop} :
    ∀ {l₁ : List α} {l₂ : List β}, List.Forall₂ R l₁ l₂ → ∀ a ∈ l₁, ∃ b, R a b := by
  intro l₁ l₂ h
  induction h with
  | nil => intro a ha; exact absurd ha (List.not_mem_nil a)
  | cons h₁ h₂ ih =>
    intro a ha
    rcases List.mem_cons.mp ha with rfl | ha
    · exact ⟨_, h₁⟩
    · exact ih a ha

lemma runSms_append :
    ∀ (xs ys : List SmsIn) (db : DB), runSms (xs ++ ys) db = runSms ys (runSms xs db) := by
  intro xs
  induction xs with
  | nil => intro ys db; rfl
  | cons c cs ih =>
    intro ys db
    show runSms (cs ++ ys) _ = _
    rw [ih]
    rfl

/-- Claim C4: starting from a state with no open collective lot for the
crop, a sequence of N successful COLLECTIVE commands with quantities
q1..qN (the first creating the lot, the rest joining it) leaves exactly one
new open collective lot for that crop whose quantity is q1+...+qN and whose
membership list has length N; moreover between any two consecutive
prefixes the membership list only grows by one appended element. -/
theorem C4_collective_additive (crop : String) (cmds : List SmsIn) (qtys : List ℚ)
    (hwf : List.Forall₂ (collCmdOk crop) cmds qtys) (hne : cmds ≠ [])
    (db : DB) (hnm : ∀ l ∈ db.lots, collMatch crop l = false) :
    (∃ L, (runSms cmds db).lots = db.lots ++ [L]
      ∧ L.is_collective = true ∧ L.crop_type = crop ∧ L.status = ("open")
      ∧ L.quantity_kg = qtys.sum ∧ L.members.length = cmds.length)
    ∧ (∀ k, 0 < k → k < cmds.length →
        ∃ L1 L2 x, (runSms (cmds.take k) db).lots = db.lots ++ [L1]
          ∧ (runSms (cmds.take (k + 1)) db).lots = db.lots ++ [L2]
          ∧ L2.members = L1.members ++ [x]) := by
  constructor
  · obtain ⟨L, h1, _, h3, h4, h5, h6, h7⟩ := runSms_coll_state crop cmds qtys hwf hne db hnm
    exact ⟨L, h1, h3, h4, h5, h6, h7⟩
  · intro k hk0 hkN
    have htne : cmds.take k ≠ [] := by
      intro hemp
      have hlen0 := congrArg List.length hemp
      rw [List.length_take] at hlen0
      simp only [List.length_nil] at hlen0
      omega
    obtain ⟨L1, hlots1, hm1, _, _, _, _, _⟩ :=
      runSms_coll_state crop (cmds.take k) (qtys.take k) (forall2_take k hwf) htne db hnm
    have hget : cmds[k]? = some (cmds[k]) := List.getElem?_eq_getElem hkN
    have htake : cmds.take (k + 1) = cmds.take k ++ [cmds[k]] := by
      rw [List.take_succ, hget]
      rfl
    obtain ⟨qk, hck⟩ := forall2_mem_left hwf (cmds[k]) (List.getElem_mem hkN)
    obtain ⟨u1, hlots2, _, _, _⟩ :=
      collective_join crop (cmds[k]) qk hck (runSms (cmds.take k) db)
        db.lots L1 hlots1 hnm hm1
    have hlots2' : (runSms (cmds.take (k + 1)) db).lots
        = db.lots ++ [{ L1 with members := L1.members ++ [u1.id], quantity_kg := L1.quantity_kg + qk }] := by
      rw [htake, runSms_append]
      exact hlots2
    exact ⟨L1, _, u1.id, hlots1, hlots2', rfl⟩

/-- The two COLLECTIVE commands of the C4 witness, from distinct farmers. -/
def collCmd1 : SmsIn :=
  { code := ("111111111111"), phone := ("+31"), body := ("collective wheat 10 delhi") }

def collCmd2 : SmsIn :=
  { code := ("222222222222"), phone := ("+32"), body := ("collective wheat 20 delhi") }

/-- Witness for C4: two COLLECTIVE commands for wheat with quantities 10
and 20 on the empty state leave one open collective wheat lot of total
quantity 30 with two members. -/
theorem C4_collective_additive_witness :
    ∃ L, (runSms [collCmd1, collCmd2] db0).lots = db0.lots ++ [L]
      ∧ L.is_collective = true ∧ L.crop_type = ("wheat") ∧ L.status = ("open")
      ∧ L.quantity_kg = ([10, 20] : List ℚ).sum
      ∧ L.members.length = [collCmd1, collCmd2].length :=
  (C4_collective_additive ("wheat") [collCmd1, collCmd2] [10, 20]
    (List.Forall₂.cons ⟨("10"), ("delhi"), [], by decide, by with_unfolding_all decide⟩
      (List.Forall₂.cons ⟨("20"), ("delhi"), [], by decide, by with_unfolding_all decide⟩
        List.Forall₂.nil))
    (by decide) db0 (by decide)).1

/-- Claim C10: COLLECTIVE joins append the caller's user id with no
duplicate check — a farmer already registered as `u` who sends k
well-formed COLLECTIVE commands for the crop of an existing open collective
lot gets `u.id` appended k times (so `u.id` occurs k more times in the
membership list), and every declared quantity is added to the total. -/
theorem C10_duplicate_members (crop phone : String) (u : User)
    (cmds : List SmsIn) (qtys : List ℚ)
    (hwf : List.Forall₂ (collCmdOk crop) cmds qtys)
    (hphone : ∀ c ∈ cmds, c.phone = phone)
    (db : DB) (pre : List Lot) (L : Lot)
    (hdb : db.lots = pre ++ [L])
    (hpre : ∀ l ∈ pre, collMatch crop l = false)
    (hL : collMatch crop L = true)
    (hu : db.users.find? (fun x => x.phone_number == phone) = some u) :
    (runSms cmds db).lots
      = pre ++ [{ L with quantity_kg := L.quantity_kg + qtys.sum,
                         members := L.members ++ List.replicate cmds.length u.id }]
    ∧ (L.members ++ List.replicate cmds.length u.id).count u.id
        = L.members.count u.id + cmds.length := by
  obtain ⟨ids, hlen, hlots, hrep⟩ := runSms_coll_chain crop cmds qtys hwf db pre L hdb hpre hL
  have hids := hrep phone u hu hphone
  rw [hids] at hlots
  exact ⟨hlots, by simp [List.count_append, List.count_replicate]⟩

/-- The already-registered collective farmer of the C10 witness. -/
def collFarmer : User :=
  { id := 7, phone_number := ("+77"), user_type := ("farmer"), district := some ("delhi"),
    login_code := some ("777777777777") }

/-- An existing open collective wheat lot already containing `collFarmer`. -/
def collLot : Lot :=
  { id := 3, farmer_id := 7, crop_type := ("wheat"), quantity_kg := 40, min_price := none,
    status := ("open"), is_collective := true, members := [7] }

/-- State with the open collective lot and its farmer. -/
def dbColl : DB :=
  { users := [collFarmer], lots := [collLot], bids := [], nextUserId := 8, nextLotId := 4,
    nextBidId := 1 }

/-- Repeated COLLECTIVE commands from the same phone number. -/
def collCmdA : SmsIn :=
  { code := ("333333333333"), phone := ("+77"), body := ("collective wheat 5 delhi") }

def collCmdB : SmsIn :=
  { code := ("444444444444"), phone := ("+77"), body := ("collective wheat 6 delhi") }

/-- Witness for C10: the same farmer joins the open collective wheat lot
twice; their id is appended twice (occurring 2 more times, with no
de-duplication) and both quantities are added. -/
theorem C10_duplicate_members_witness :
    (runSms [collCmdA, collCmdB] dbColl).lots
      = [] ++ [{ collLot with
          quantity_kg := collLot.quantity_kg + ([5, 6] : List ℚ).sum,
          members := collLot.members
            ++ List.replicate [collCmdA, collCmdB].length collFarmer.id }]
    ∧ (collLot.members ++ List.replicate [collCmdA, collCmdB].length collFarmer.id).count
        collFarmer.id
      = collLot.members.count collFarmer.id + [collCmdA, collCmdB].length :=
  C10_duplicate_members ("wheat") ("+77") collFarmer [collCmdA, collCmdB] [5, 6]
    (List.Forall₂.cons ⟨("5"), ("delhi"), [], by decide, by with_unfolding_all decide⟩
      (List.Forall₂.cons ⟨("6"), ("delhi"), [], by decide, by with_unfolding_all decide⟩
        List.Forall₂.nil))
    (by decide) dbColl [] collLot rfl (by decide) (by decide) (by decide)

end EMandi
